import Mathlib

/-!
Verification of the OpenDrop channel-to-pin multiplexing driver and
connection/session state machine (`src/opendrop_board.py`, with the
firmware-version gate and the state-resize step from `src/__init__.py`).

Embedding conventions:
* A digital pin write is recorded as a `PinWrite` event carrying the pin
  family (gate/source), the family-local index and the level written.
  `PinWrite.pin` recovers the physical pin number passed to
  `proxy.digital_write` (`2 + i` for gates, `10 + i` for sources), exactly
  as in `set_gate` / `set_source`.
* Python's `LOW = 0` / `HIGH = 1` levels are modelled as `false` / `true`.
* Methods whose only effect is emitting proxy writes (`set_gate`,
  `set_source`, `set_channel_state`, `clear_all_channels`,
  `set_state_of_all_channels`) are modelled as pure functions returning
  the list of writes they issue, in order.  The `for channel, state in
  enumerate(state_array)` loop is modelled by the structural recursion
  `channel_writes` carrying the running channel counter.
* The session object (`OpenDropBoard`) is a record of the `serial_device`
  handle (port, baud rate, open flag), the `proxy` attribute (present
  after a successful `connect`, absent on a fresh board; it carries the
  device-reported `properties()` values) and the `serial_number`
  attribute.  Python exceptions are modelled by `Except PyError`;
  `PyError.indexError` is the `IndexError` of indexing an empty list and
  `PyError.attributeError` the `AttributeError` of accessing a missing
  attribute (e.g. `self.proxy` on a never-connected board).  The float
  attributes (`max_waveform_voltage`, waveform frequency bounds) are not
  needed by any property proved here and are omitted.
* `connect` takes the result of `get_serial_ports()` and the
  device-reported proxy properties as explicit parameters (they are
  external inputs), and returns the new session state together with the
  trace of transport actions (serial open, settle sleep, `pin_mode`
  configuration, digital writes) it performed.
-/

/-- Pin levels: Python `LOW = 0`. -/
def LOW : Bool := false

/-- Pin levels: Python `HIGH = 1`. -/
def HIGH : Bool := true

/-- Pin mode constant: Python `OUTPUT = 1`. -/
def OUTPUT : Nat := 1

/-- One digital write issued through the proxy, tagged with its pin family
(gate or source), family-local index and level. -/
inductive PinWrite where
  | gate (i : Nat) (level : Bool)
  | source (i : Nat) (level : Bool)
deriving DecidableEq, Repr

/-- Physical pin number passed to `proxy.digital_write`: `set_gate(i, s)`
writes pin `2 + i`, `set_source(i, s)` writes pin `10 + i`. -/
def PinWrite.pin : PinWrite → Nat
  | .gate i _ => 2 + i
  | .source i _ => 10 + i

/-- Whether the write is a gate-family write. -/
def PinWrite.isGate : PinWrite → Bool
  | .gate _ _ => true
  | .source _ _ => false

/-- Whether the write is a source-family write. -/
def PinWrite.isSource : PinWrite → Bool
  | .gate _ _ => false
  | .source _ _ => true

/-- The level written. -/
def PinWrite.level : PinWrite → Bool
  | .gate _ l => l
  | .source _ l => l

/-- `OpenDropBoard.set_gate(i, state)`: one `digital_write(2 + i, state)`. -/
def set_gate (i : Nat) (state : Bool) : List PinWrite :=
  [PinWrite.gate i state]

/-- `OpenDropBoard.set_source(i, state)`: one `digital_write(10 + i, state)`. -/
def set_source (i : Nat) (state : Bool) : List PinWrite :=
  [PinWrite.source i state]

/-- `OpenDropBoard.clear_all_channels`: `for i in range(0, 9): set_gate(i, LOW)`
then `for i in range(1, 9): set_source(i, HIGH)`. -/
def clear_all_channels : List PinWrite :=
  ((List.range 9).flatMap fun i => set_gate i LOW)
    ++ ((List.range' 1 8).flatMap fun i => set_source i HIGH)

/-- `OpenDropBoard.set_channel_state(channel, state)`.  The Python source is
Python 2, so `(channel - 4) / 8` is integer floor division, matching `Nat./`;
`int(not bool(state))` is the negation `!state`. -/
def set_channel_state (channel : Nat) (state : Bool) : List PinWrite :=
  if channel < 2 then
    set_source (2 * channel + 1) (!state) ++ set_gate 0 state
  else if channel < 4 then
    set_source (2 * channel + 2) (!state) ++ set_gate 0 state
  else
    set_source ((channel - 4) % 8 + 1) (!state)
      ++ set_gate ((channel - 4) / 8 + 1) state

/-- The `for channel, state in enumerate(state_array): if state:
set_channel_state(channel, state)` loop of `set_state_of_all_channels`,
with `channel` the running counter. -/
def channel_writes (channel : Nat) : List Bool → List PinWrite
  | [] => []
  | state :: rest =>
    (if state then set_channel_state channel state else [])
      ++ channel_writes (channel + 1) rest

/-- `OpenDropBoard.set_state_of_all_channels(state_array)`: clear all
channels, then drive every truthy entry.  The method performs no resizing
of `state_array`. -/
def set_state_of_all_channels (state_array : List Bool) : List PinWrite :=
  clear_all_channels ++ channel_writes 0 state_array

/-- Gate index formula as written in the specification (§4.2). -/
def gate_index_spec (channel : Nat) : Nat :=
  if channel < 4 then 0 else (channel - 4) / 8 + 1

/-- Source index formula as written in the specification (§4.2). -/
def source_index_spec (channel : Nat) : Nat :=
  if channel < 2 then 2 * channel + 1
  else if channel < 4 then 2 * channel + 2
  else (channel - 4) % 8 + 1

/-- Modelled from the spec's words: the safe write order demanded for the
`ActiveHighIdle` convention is source-family writes first, with only
gate-family writes after them. -/
def source_then_gate_order (l : List PinWrite) : Bool :=
  (l.dropWhile fun w => w.isSource).all fun w => w.isGate

/-- Per-channel writes for exactly the truthy entries of the array, in
channel order (the specification's characterisation of the loop). -/
def truthy_channel_writes (state_array : List Bool) : List PinWrite :=
  ((state_array.enum).filter fun p => p.2).flatMap fun p =>
    set_channel_state p.1 p.2

/-- The resize step of `OpenDropPlugin.on_step_run` (`src/__init__.py`
lines 305-310): truncate to `max_channels` if longer, zero-pad if shorter. -/
def resize_state (state : List Bool) (max_channels : Nat) : List Bool :=
  if state.length > max_channels then state.take max_channels
  else if state.length < max_channels then
    state ++ List.replicate (max_channels - state.length) false
  else state

example : set_channel_state 0 true = [PinWrite.source 1 false, PinWrite.gate 0 true] := by decide
example : set_channel_state 3 true = [PinWrite.source 8 false, PinWrite.gate 0 true] := by decide
example : set_channel_state 11 false = [PinWrite.source 8 true, PinWrite.gate 1 false] := by decide
example : set_channel_state 67 true = [PinWrite.source 8 false, PinWrite.gate 8 true] := by decide

/-- Claim C1: for every channel index `c ≤ 67` and boolean state,
`set_channel_state(c, state)` performs exactly one source write and exactly
one gate write, the source level being the negation of the gate level, with
gate/source indices given by the §4.2 formulas (`c < 2`: gate 0, source
`2c+1`; `2 ≤ c < 4`: gate 0, source `2c+2`; `c ≥ 4`: gate `(c-4)/8 + 1`
(floor division), source `(c-4)%8 + 1`). -/
theorem c1_set_channel_state_mapping :
    ∀ c : Nat, c ≤ 67 → ∀ s : Bool,
      set_channel_state c s =
        [PinWrite.source (source_index_spec c) (!s),
         PinWrite.gate (gate_index_spec c) s] ∧
      (set_channel_state c s).countP (fun w => w.isSource) = 1 ∧
      (set_channel_state c s).countP (fun w => w.isGate) = 1 := by
  have H : ∀ c : Nat, c < 68 → ∀ s : Bool,
      set_channel_state c s =
        [PinWrite.source (source_index_spec c) (!s),
         PinWrite.gate (gate_index_spec c) s] ∧
      (set_channel_state c s).countP (fun w => w.isSource) = 1 ∧
      (set_channel_state c s).countP (fun w => w.isGate) = 1 := by decide
  exact fun c hc s => H c (by omega) s

/-- Witness for C1 at channel 67, state `true`. -/
theorem c1_witness :
    set_channel_state 67 true =
      [PinWrite.source 8 false, PinWrite.gate 8 true] ∧
    (set_channel_state 67 true).countP (fun w => w.isSource) = 1 ∧
    (set_channel_state 67 true).countP (fun w => w.isGate) = 1 :=
  c1_set_channel_state_mapping 67 (by decide) true

/-- Claim C2 counterexample: `clear_all_channels` emits the idle pattern
gates LOW / sources HIGH — the specification's `ActiveHighIdle` pattern —
yet its write order is not source-then-gate (the first write is already a
gate write), contradicting the claim's safe-order requirement for that
convention. -/
theorem c2_counterexample :
    clear_all_channels.all
      (fun w => (!w.isGate || (w.level == false))
        && (!w.isSource || (w.level == true))) = true ∧
    source_then_gate_order clear_all_channels = false ∧
    clear_all_channels.head? = some (PinWrite.gate 0 LOW) := by
  decide

/-- Claim C2 (amended): `clear_all_channels` writes all 9 gate pins
(indices 0..8) to LOW and then all 8 source pins (indices 1..8) to HIGH,
regardless of prior state — the gates-LOW/sources-HIGH (`ActiveHighIdle`)
idle pattern, emitted in gate-then-source order; the polarity convention
and the order are hard-coded, not configurable. -/
theorem c2_clear_all_channels_writes :
    clear_all_channels =
      [PinWrite.gate 0 LOW, PinWrite.gate 1 LOW, PinWrite.gate 2 LOW,
       PinWrite.gate 3 LOW, PinWrite.gate 4 LOW, PinWrite.gate 5 LOW,
       PinWrite.gate 6 LOW, PinWrite.gate 7 LOW, PinWrite.gate 8 LOW,
       PinWrite.source 1 HIGH, PinWrite.source 2 HIGH, PinWrite.source 3 HIGH,
       PinWrite.source 4 HIGH, PinWrite.source 5 HIGH, PinWrite.source 6 HIGH,
       PinWrite.source 7 HIGH, PinWrite.source 8 HIGH] ∧
    clear_all_channels.length = 17 := by
  decide

/-- The enumerate loop equals the filtered-enumeration characterisation,
for any starting channel counter. -/
theorem channel_writes_eq_enumFrom (l : List Bool) :
    ∀ k : Nat, channel_writes k l =
      ((List.enumFrom k l).filter fun p => p.2).flatMap fun p =>
        set_channel_state p.1 p.2 := by
  induction l with
  | nil => intro k; simp [channel_writes]
  | cons s rest ih =>
    intro k
    cases s <;> simp [channel_writes, List.enumFrom, ih (k + 1)]

/-- Claim C3 (amended): every execution of `set_state_of_all_channels`
issues the complete 17-write idle-clear sequence before any per-channel
write: the emitted sequence is exactly the clear sequence followed by the
per-channel writes for the truthy entries of the state array as passed in
(the method itself performs no resizing), in channel order. -/
theorem c3_clear_before_channel_writes (state_array : List Bool) :
    set_state_of_all_channels state_array =
      clear_all_channels ++ truthy_channel_writes state_array ∧
    (set_state_of_all_channels state_array).take 17 = clear_all_channels ∧
    clear_all_channels.length = 17 := by
  refine ⟨?_, ?_, by decide⟩
  · have h := channel_writes_eq_enumFrom state_array 0
    simp only [set_state_of_all_channels, truthy_channel_writes, List.enum]
    rw [h]
  · have hlen : clear_all_channels.length = 17 := by decide
    simp only [set_state_of_all_channels]
    rw [← hlen, List.take_left]

/-- Concrete 69-entry state array whose only truthy entry is index 68. -/
def arr69 : List Bool := List.replicate 68 false ++ [true]

set_option maxRecDepth 20000 in
/-- Claim C3 counterexample: on a 69-entry array whose only truthy entry is
channel 68, `set_state_of_all_channels` emits writes for channel 68
(source 1 LOW, gate 9 HIGH), whereas the claim's "(resized) state array"
(resized to the 68-channel count, hence all-false) predicts the clear
sequence alone: the method does not resize its input. -/
theorem c3_counterexample :
    set_state_of_all_channels arr69 =
      clear_all_channels ++ [PinWrite.source 1 LOW, PinWrite.gate 9 HIGH] ∧
    truthy_channel_writes (resize_state arr69 68) = [] ∧
    set_state_of_all_channels arr69 ≠
      clear_all_channels ++ truthy_channel_writes (resize_state arr69 68) := by
  decide

/-- The pins configured as outputs by `connect`: `range(2, 19)` = 2..18. -/
def output_pins : List Nat := List.range' 2 17

/-- A run of falsy entries makes the enumerate loop emit nothing. -/
theorem channel_writes_replicate_false (n : Nat) :
    ∀ k : Nat, channel_writes k (List.replicate n false) = [] := by
  induction n with
  | zero => intro k; rfl
  | succ m ih => intro k; simp [List.replicate, channel_writes, ih (k + 1)]

/-- The enumerate loop splits over list append, shifting the counter. -/
theorem channel_writes_append (l₁ l₂ : List Bool) :
    ∀ k : Nat, channel_writes k (l₁ ++ l₂) =
      channel_writes k l₁ ++ channel_writes (k + l₁.length) l₂ := by
  induction l₁ with
  | nil => intro k; simp [channel_writes]
  | cons s rest ih =>
    intro k
    simp [channel_writes, ih (k + 1), Nat.add_assoc, Nat.add_comm 1 rest.length]

/-- Every write the enumerate loop emits comes from `set_channel_state c s`
for some channel `c` within the enumerated index range. -/
theorem channel_writes_mem (l : List Bool) :
    ∀ k : Nat, ∀ w ∈ channel_writes k l,
      ∃ c, k ≤ c ∧ c < k + l.length ∧ ∃ s, w ∈ set_channel_state c s := by
  induction l with
  | nil => intro k w hw; simp [channel_writes] at hw
  | cons s rest ih =>
    intro k w hw
    simp only [channel_writes, List.mem_append] at hw
    rcases hw with hw | hw
    · cases s with
      | false => simp at hw
      | true =>
        refine ⟨k, Nat.le_refl k, by simp, true, ?_⟩
        simpa using hw
    · obtain ⟨c, hk, hc, hs⟩ := ih (k + 1) w hw
      exact ⟨c, by omega, by simp only [List.length_cons]; omega, hs⟩

/-- For channels 0..67 every pin written lies in the output range. -/
theorem set_channel_state_pin_range :
    ∀ c : Nat, c < 68 → ∀ s : Bool, ∀ w ∈ set_channel_state c s,
      2 ≤ w.pin ∧ w.pin ≤ 18 ∧ w.pin ∈ output_pins ∧
      (w.isGate = true → w.pin ≤ 10) ∧
      (w.isSource = true → 11 ≤ w.pin) := by
  decide

/-- Every pin written by the clear sequence lies in the output range. -/
theorem clear_all_channels_pin_range :
    ∀ w ∈ clear_all_channels,
      2 ≤ w.pin ∧ w.pin ≤ 18 ∧ w.pin ∈ output_pins := by
  decide

/-- The resize step yields at most `max_channels` entries. -/
theorem resize_state_length_le (state : List Bool) (max_channels : Nat) :
    (resize_state state max_channels).length ≤ max_channels := by
  simp only [resize_state]
  split
  · rw [List.length_take]; omega
  · split
    · rw [List.length_append, List.length_replicate]; omega
    · omega

/-- Claim C4 (amended): `set_state_of_all_channels` on an array shorter than
`channel_count` (68) produces the same writes as on the array zero-padded to
`channel_count`; the method itself does not truncate longer arrays (entries
at indices ≥ 68 are also mapped — see the counterexample); the truncation to
`channel_count` is performed by the caller `on_step_run` (`resize_state`)
before the call, and on any resized array every written pin lies in 2..18,
so no channel outside 0..67 is mapped on that path. -/
theorem c4_resize_equivalence (state_array : List Bool) (n : Nat) :
    set_state_of_all_channels (state_array ++ List.replicate n false) =
      set_state_of_all_channels state_array ∧
    (state_array.length < 68 →
      set_state_of_all_channels (resize_state state_array 68) =
        set_state_of_all_channels state_array) ∧
    (∀ w ∈ set_state_of_all_channels (resize_state state_array 68),
      2 ≤ w.pin ∧ w.pin ≤ 18) := by
  have pad : ∀ m : Nat,
      set_state_of_all_channels (state_array ++ List.replicate m false) =
        set_state_of_all_channels state_array := by
    intro m
    simp only [set_state_of_all_channels, channel_writes_append,
      channel_writes_replicate_false, List.append_nil]
  refine ⟨pad n, ?_, ?_⟩
  · intro hshort
    have : resize_state state_array 68 =
        state_array ++ List.replicate (68 - state_array.length) false := by
      unfold resize_state
      rw [if_neg (by omega), if_pos hshort]
    rw [this, pad]
  · intro w hw
    simp only [set_state_of_all_channels, List.mem_append] at hw
    rcases hw with hw | hw
    · exact ⟨(clear_all_channels_pin_range w hw).1,
        (clear_all_channels_pin_range w hw).2.1⟩
    · obtain ⟨c, _, hc, s, hs⟩ :=
        channel_writes_mem (resize_state state_array 68) 0 w hw
      have hlt : c < 68 := by
        have := resize_state_length_le state_array 68
        omega
      have h := set_channel_state_pin_range c hlt s w hs
      exact ⟨h.1, h.2.1⟩

/-- Witness for C4 at the one-entry array `[true]`. -/
theorem c4_witness :
    set_state_of_all_channels ([true] ++ List.replicate 1 false) =
      set_state_of_all_channels [true] ∧
    set_state_of_all_channels (resize_state [true] 68) =
      set_state_of_all_channels [true] ∧
    2 ≤ (PinWrite.gate 0 HIGH).pin ∧ (PinWrite.gate 0 HIGH).pin ≤ 18 := by
  have h := c4_resize_equivalence [true] 1
  exact ⟨h.1, h.2.1 (by decide),
    h.2.2 (PinWrite.gate 0 HIGH) (by decide)⟩

/-- Concrete 70-entry state array whose only truthy entry is index 69. -/
def arr70 : List Bool := List.replicate 69 false ++ [true]

set_option maxRecDepth 20000 in
/-- Claim C4 counterexample: on a 70-entry array whose only truthy entry is
channel 69, `set_state_of_all_channels` does not behave like on the array
truncated to 68 entries: it additionally emits the writes for channel 69
(source 2 LOW, gate 9 HIGH — gate index 9, outside the physical range 0..8),
so the method itself maps channel indices outside 0..67. -/
theorem c4_counterexample :
    set_state_of_all_channels arr70 ≠
      set_state_of_all_channels (arr70.take 68) ∧
    set_state_of_all_channels arr70 =
      clear_all_channels ++ [PinWrite.source 2 LOW, PinWrite.gate 9 HIGH] ∧
    PinWrite.gate 9 HIGH ∈ set_state_of_all_channels arr70 := by
  decide

/-- Python exceptions that the modelled code can raise. -/
inductive PyError where
  | indexError
  | attributeError
deriving DecidableEq, Repr

/-- The `serial.Serial` handle: port name, baud rate and open flag. -/
structure SerialDevice where
  port : String
  baudrate : Nat
  isOpen : Bool
deriving DecidableEq, Repr

/-- The device-reported `proxy.properties()` values used by the session. -/
structure ProxyProps where
  name : String
  software_version : String
deriving DecidableEq, Repr

/-- The `OpenDropBoard` session object: the `serial_device` attribute
(`None` on a fresh board), the `proxy` attribute (`none` models the
attribute not existing, as on a never-connected board) and the
`serial_number` attribute (initialised to 0). -/
structure OpenDropBoard where
  serial_device : Option SerialDevice
  proxy : Option ProxyProps
  serial_number : Nat
deriving DecidableEq, Repr

/-- A fresh `OpenDropBoard()`: no serial device, no proxy attribute,
serial number 0. -/
def initial_board : OpenDropBoard :=
  { serial_device := none, proxy := none, serial_number := 0 }

/-- `OpenDropBoard.connected`: true iff `serial_device` is set and reports
itself open. -/
def OpenDropBoard.connected (b : OpenDropBoard) : Bool :=
  match b.serial_device with
  | some s => s.isOpen
  | none => false

/-- The `port` property: the serial device's port while connected, else
`None`. -/
def OpenDropBoard.port (b : OpenDropBoard) : Option String :=
  if b.connected then b.serial_device.map (fun s => s.port) else none

/-- The `baud_rate` property: the serial device's baud rate while
connected, else `None`. -/
def OpenDropBoard.baud_rate (b : OpenDropBoard) : Option Nat :=
  if b.connected then b.serial_device.map (fun s => s.baudrate) else none

/-- One transport-level action issued during `connect` /
`set_state_of_all_channels`. -/
inductive TransportAction where
  | openSerial (port : String) (baud : Nat)
  | sleep (seconds : Nat)
  | pinMode (pin : Nat) (mode : Nat)
  | write (w : PinWrite)
deriving DecidableEq, Repr

/-- Port fallback of `connect` lines 56-62: the previously-bound port if
set, else the first enumerated serial port — `[port for port in
get_serial_ports()][0]` raises `IndexError` when the list is empty. -/
def fallback_port (b : OpenDropBoard) (available_ports : List String) :
    Except PyError (Option String) :=
  match b.port with
  | some p => .ok (some p)
  | none =>
    match available_ports with
    | [] => .error .indexError
    | p :: _ => .ok (some p)

/-- Port resolution of `connect`: an explicit port is used as-is unless it
is `None` or the literal string `'None'`, which trigger the fallback. -/
def resolve_port (b : OpenDropBoard) (available_ports : List String)
    (serial_port : Option String) : Except PyError (Option String) :=
  match serial_port with
  | none => fallback_port b available_ports
  | some p => if p = "None" then fallback_port b available_ports else .ok (some p)

/-- `OpenDropBoard.connect(serial_port, baud_rate)`.  `available_ports`
models `get_serial_ports()` and `device` the properties the opened proxy
will report; the result carries the new session state and the trace of
transport actions.  After port resolution the `if serial_port is None:
return` guard (line 65) is checked; if the resolved (port, baud) equals the
currently-open pair nothing is done, else a new serial device and proxy are
installed, a 2-second settle sleep runs, pins 2..18 are configured as
outputs and the idle-clear sequence is written. -/
def connect (b : OpenDropBoard) (available_ports : List String)
    (device : ProxyProps) (serial_port : Option String) (baud_rate : Nat) :
    Except PyError (OpenDropBoard × List TransportAction) :=
  match resolve_port b available_ports serial_port with
  | .error e => .error e
  | .ok none => .ok (b, [])
  | .ok (some p) =>
    if b.port = some p ∧ b.baud_rate = some baud_rate then
      .ok (b, [])
    else
      .ok ({ b with
              serial_device := some { port := p, baudrate := baud_rate, isOpen := true },
              proxy := some device },
           [TransportAction.openSerial p baud_rate, TransportAction.sleep 2]
             ++ output_pins.map (fun pin => TransportAction.pinMode pin OUTPUT)
             ++ clear_all_channels.map TransportAction.write)

/-- The body of `OpenDropBoard.disconnect` without its `try/except`:
`self.proxy._packet_watcher.terminate()` raises `AttributeError` when the
proxy attribute does not exist, then `self.serial_device.close()` raises
`AttributeError` when `serial_device` is `None`, else closes it. -/
def disconnect_raw (b : OpenDropBoard) : Except PyError OpenDropBoard :=
  match b.proxy with
  | none => .error .attributeError
  | some _ =>
    match b.serial_device with
    | none => .error .attributeError
    | some s => .ok { b with serial_device := some { s with isOpen := false } }

/-- `OpenDropBoard.disconnect`: the bare `except: pass` swallows every
error of the body, leaving the state as it was when the body raised. -/
def disconnect (b : OpenDropBoard) : OpenDropBoard :=
  match disconnect_raw b with
  | .ok b' => b'
  | .error _ => b

/-- The transport actions `set_state_of_all_channels` issues through the
proxy. -/
def all_channel_actions (state_array : List Bool) : List TransportAction :=
  (set_state_of_all_channels state_array).map TransportAction.write

/-- Calling `set_state_of_all_channels` on the session object: the method
performs no connected-state check — it issues its digital writes through
`self.proxy` whenever that attribute exists, and raises `AttributeError`
(at the first write attempt) when it does not. -/
def OpenDropBoard.run_set_state_of_all_channels (b : OpenDropBoard)
    (state_array : List Bool) : Except PyError (List TransportAction) :=
  match b.proxy with
  | some _ => .ok (all_channel_actions state_array)
  | none => .error .attributeError

/-- `OpenDropBoard.name`: reads `self.proxy.properties()['name']` with no
connected-state check. -/
def OpenDropBoard.name (b : OpenDropBoard) : Except PyError String :=
  match b.proxy with
  | some p => .ok p.name
  | none => .error .attributeError

/-- `OpenDropBoard.software_version`: reads
`self.proxy.properties().software_version` with no connected-state check. -/
def OpenDropBoard.software_version (b : OpenDropBoard) : Except PyError String :=
  match b.proxy with
  | some p => .ok p.software_version
  | none => .error .attributeError

/-- `OpenDropBoard.number_of_channels`: the constant 68, returned with no
connected-state check. -/
def OpenDropBoard.number_of_channels (_b : OpenDropBoard) : Nat := 68

/-- `OpenDropBoard.hardware_version`: the constant string `"1.0.0"`,
returned with no connected-state check. -/
def OpenDropBoard.hardware_version (_b : OpenDropBoard) : String := "1.0.0"

/-- Session invariant: whenever the serial device is open a proxy
attribute exists (`connect` installs both together). -/
def proxy_invariant (b : OpenDropBoard) : Prop :=
  b.connected = true → b.proxy.isSome = true

/-- The fresh board satisfies the session invariant. -/
theorem proxy_invariant_initial : proxy_invariant initial_board := by
  intro h
  simp [initial_board, OpenDropBoard.connected] at h

/-- `connect` preserves the session invariant. -/
theorem proxy_invariant_connect (b : OpenDropBoard)
    (available_ports : List String) (device : ProxyProps)
    (serial_port : Option String) (baud_rate : Nat)
    (result : OpenDropBoard × List TransportAction)
    (hok : connect b available_ports device serial_port baud_rate = .ok result)
    (hb : proxy_invariant b) : proxy_invariant result.1 := by
  unfold connect at hok
  split at hok
  · exact Except.noConfusion hok
  · injection hok with h; subst h; exact hb
  · split at hok
    · injection hok with h; subst h; exact hb
    · injection hok with h; subst h
      intro _
      rfl

/-- `disconnect` preserves the session invariant. -/
theorem proxy_invariant_disconnect (b : OpenDropBoard)
    (hb : proxy_invariant b) : proxy_invariant (disconnect b) := by
  unfold disconnect disconnect_raw
  cases hpx : b.proxy with
  | none => exact hb
  | some p =>
    cases hsd : b.serial_device with
    | none => exact hb
    | some s =>
      intro _
      simp [hpx]

/-- A session that was connected and then lost/closed its serial link:
`connected()` is false but the proxy attribute still exists. -/
def stale_board : OpenDropBoard :=
  { serial_device := some { port := "COM3", baudrate := 115200, isOpen := false },
    proxy := some { name := "open_drop", software_version := "1.0" },
    serial_number := 0 }

/-- Claim C5 counterexample: on a session with `connected() == false` (a
closed serial device but a still-present proxy), `set_state_of_all_channels`
returns no `NotConnected` error — it succeeds and issues all 17 idle-clear
transport writes — and `number_of_channels` / `hardware_version` return
their constants without any error.  No `NotConnected` error value exists
anywhere in the code. -/
theorem c5_counterexample :
    stale_board.connected = false ∧
    stale_board.run_set_state_of_all_channels [] =
      .ok (all_channel_actions []) ∧
    (all_channel_actions []).length = 17 ∧
    stale_board.number_of_channels = 68 ∧
    stale_board.hardware_version = "1.0.0" := by
  exact ⟨rfl, rfl, by decide, rfl, rfl⟩

/-- Claim C5 (amended): no operation checks `connected()`.  While
`connected() == false`, `set_state_of_all_channels` still issues its pin
writes through `self.proxy` whenever that attribute exists and raises
`AttributeError` when it does not; `number_of_channels` and
`hardware_version` return the constants 68 and "1.0.0" regardless of
connection; `name` and `software_version` query the proxy unconditionally.
No `NotConnected` error is ever returned. -/
theorem c5_no_connected_guard :
    ∀ (b : OpenDropBoard) (state_array : List Bool),
      b.connected = false →
      (∀ p, b.proxy = some p →
        b.run_set_state_of_all_channels state_array =
          .ok (all_channel_actions state_array) ∧
        b.name = .ok p.name ∧
        b.software_version = .ok p.software_version) ∧
      (b.proxy = none →
        b.run_set_state_of_all_channels state_array = .error .attributeError ∧
        b.name = .error .attributeError ∧
        b.software_version = .error .attributeError) ∧
      b.number_of_channels = 68 ∧
      b.hardware_version = "1.0.0" := by
  intro b state_array _
  refine ⟨?_, ?_, rfl, rfl⟩
  · intro p hp
    simp [OpenDropBoard.run_set_state_of_all_channels, OpenDropBoard.name,
      OpenDropBoard.software_version, hp]
  · intro hp
    simp [OpenDropBoard.run_set_state_of_all_channels, OpenDropBoard.name,
      OpenDropBoard.software_version, hp]

/-- Witness for C5 (amended) at the disconnected `stale_board`. -/
theorem c5_witness :
    stale_board.run_set_state_of_all_channels [] =
      .ok (all_channel_actions []) ∧
    stale_board.name = .ok "open_drop" ∧
    stale_board.software_version = .ok "1.0" ∧
    stale_board.number_of_channels = 68 ∧
    stale_board.hardware_version = "1.0.0" := by
  have h := c5_no_connected_guard stale_board [] rfl
  have hp := h.1 { name := "open_drop", software_version := "1.0" } rfl
  exact ⟨hp.1, hp.2.1, hp.2.2, h.2.2.1, h.2.2.2⟩

/-- Device identity used where `connect` needs proxy properties. -/
def device_props : ProxyProps :=
  { name := "open_drop", software_version := "1.0" }

/-- Claim C6: `connect()` on a fresh board (no explicit port, no
previously-bound port) with an empty enumerated-ports list raises
`IndexError` from `[port for port in get_serial_ports()][0]` — it does not
return a graceful `NoPortAvailable` result (the `if serial_port is None:
return` guard at line 65 is unreachable); the session performs no state
mutation, so `connected()` remains false. -/
theorem c6_connect_no_ports :
    connect initial_board [] device_props none 115200 =
      .error .indexError ∧
    initial_board.connected = false := by
  exact ⟨rfl, rfl⟩

/-- Claim C7: calling `connect` with an explicit port and baud rate equal
to the already-open (port, baud) pair is a no-op: the session state is
returned unchanged and no transport action (no serial open/close, no
settle sleep, no `pin_mode`, no idle-clear write) is issued. -/
theorem c7_reconnect_same_port_noop :
    ∀ (b : OpenDropBoard) (available_ports : List String)
      (device : ProxyProps) (p : String) (baud : Nat),
      b.port = some p → b.baud_rate = some baud →
      connect b available_ports device (some p) baud = .ok (b, []) := by
  intro b available_ports device p baud hp hb
  unfold connect resolve_port
  by_cases hN : p = "None"
  · subst hN
    simp [fallback_port, hp, hb]
  · simp [hN, hp, hb]

/-- A session currently open on ("COM3", 115200). -/
def connected_board : OpenDropBoard :=
  { serial_device := some { port := "COM3", baudrate := 115200, isOpen := true },
    proxy := some device_props,
    serial_number := 0 }

/-- Witness for C7 at a session open on ("COM3", 115200). -/
theorem c7_witness :
    connect connected_board [] device_props (some "COM3") 115200 =
      .ok (connected_board, []) :=
  c7_reconnect_same_port_noop connected_board [] device_props "COM3" 115200
    rfl rfl

/-- Claim C8: `disconnect` never raises (every error of its body is
swallowed by the bare `except: pass`, leaving the state unchanged), is
idempotent, and on any session satisfying the session invariant it leaves
`connected() == false`. -/
theorem c8_disconnect_idempotent_never_raises :
    ∀ b : OpenDropBoard, proxy_invariant b →
      disconnect (disconnect b) = disconnect b ∧
      (disconnect b).connected = false ∧
      (∀ e, disconnect_raw b = .error e → disconnect b = b) := by
  intro b hb
  obtain ⟨sd, px, sn⟩ := b
  cases px with
  | none =>
    cases sd with
    | none => exact ⟨rfl, rfl, fun e _ => rfl⟩
    | some s =>
      cases hopen : s.isOpen with
      | false =>
        refine ⟨rfl, ?_, fun e _ => rfl⟩
        simp [disconnect, disconnect_raw, OpenDropBoard.connected, hopen]
      | true =>
        exfalso
        have h := hb (by simp [OpenDropBoard.connected, hopen])
        simp at h
  | some p =>
    cases sd with
    | none => exact ⟨rfl, rfl, fun e _ => rfl⟩
    | some s =>
      refine ⟨rfl, rfl, fun e he => ?_⟩
      exact Except.noConfusion he

/-- Witness for C8 at the fresh board. -/
theorem c8_witness :
    disconnect (disconnect initial_board) = disconnect initial_board ∧
    (disconnect initial_board).connected = false ∧
    disconnect initial_board = initial_board := by
  have h := c8_disconnect_idempotent_never_raises initial_board
    proxy_invariant_initial
  exact ⟨h.1, h.2.1, h.2.2 PyError.attributeError rfl⟩

/-- The firmware-update decision of
`OpenDropPlugin.check_device_name_and_version` (`src/__init__.py` line
231): `host_software_version != remote_software_version`, a pure string
comparison. -/
def needs_firmware_update (host_version device_version : String) : Bool :=
  host_version != device_version

/-- Claim C9: the firmware-update decision is true iff the two version
strings differ as exact strings (no fuzzy matching); in particular it is
false on ("1.2.0", "1.2.0") and true on ("1.2.0", "1.1.9").  The decision
is a pure function of the two strings and touches no session state. -/
theorem c9_needs_firmware_update_exact :
    ∀ host_version device_version : String,
      (needs_firmware_update host_version device_version = true ↔
        host_version ≠ device_version) ∧
      needs_firmware_update "1.2.0" "1.2.0" = false ∧
      needs_firmware_update "1.2.0" "1.1.9" = true := by
  intro host_version device_version
  refine ⟨?_, by decide, by decide⟩
  simp [needs_firmware_update, bne_iff_ne]

/-- Claim C10: for every channel 0..67 and state, every physical pin
written by `set_channel_state` lies in 2..18 — gate index `i` maps to pin
`2 + i` (2..10) and source index `i` to pin `10 + i` (11..18) — exactly the
`output_pins` range (pins 2..18) configured as outputs during `connect`;
the same holds for every pin written by `clear_all_channels`. -/
theorem c10_pins_within_output_range :
    ∀ c : Nat, c ≤ 67 → ∀ s : Bool,
      (∀ w ∈ set_channel_state c s,
        w.pin ∈ output_pins ∧ 2 ≤ w.pin ∧ w.pin ≤ 18 ∧
        (w.isGate = true → w.pin ≤ 10) ∧
        (w.isSource = true → 11 ≤ w.pin)) ∧
      (∀ w ∈ clear_all_channels,
        w.pin ∈ output_pins ∧ 2 ≤ w.pin ∧ w.pin ≤ 18) := by
  intro c hc s
  refine ⟨fun w hw => ?_, fun w hw => ?_⟩
  · have h := set_channel_state_pin_range c (by omega) s w hw
    exact ⟨h.2.2.1, h.1, h.2.1, h.2.2.2.1, h.2.2.2.2⟩
  · have h := clear_all_channels_pin_range w hw
    exact ⟨h.2.2, h.1, h.2.1⟩

/-- Witness for C10 at channel 0, state `true`, for its first write
(source 1, level LOW → pin 11). -/
theorem c10_witness :
    (PinWrite.source 1 LOW).pin ∈ output_pins ∧
    2 ≤ (PinWrite.source 1 LOW).pin ∧ (PinWrite.source 1 LOW).pin ≤ 18 ∧
    ((PinWrite.source 1 LOW).isGate = true → (PinWrite.source 1 LOW).pin ≤ 10) ∧
    ((PinWrite.source 1 LOW).isSource = true → 11 ≤ (PinWrite.source 1 LOW).pin) := by
  have h := c10_pins_within_output_range 0 (by decide) true
  exact h.1 (PinWrite.source 1 LOW) (by decide)
